import Mathlib

/-!
Verification development for the RAG core of the cardlens-research-terminal
repository. The Python modules src/ingest.py, src/embeddings.py,
src/retrieval.py and src/qa.py are shallowly embedded below: pure functions
become Lean functions, the on-disk index becomes an explicit state record,
exceptions become Except, and the external collaborators (tokenizer,
embedding service, cosine-similarity kernel, chat-completion client) become
function parameters, mirroring the fact that they are external services.
Machine floats carried by the source (similarity scores, embedding vectors)
are modelled over the rationals; none of the proved properties depends on
rounding, only on ordering and on data flow.
-/

namespace CardLens

/-! ## Data model

A chunk record as produced by src/ingest.py and stored one-per-line in
chunks.jsonl; the metadata entries written by build_index carry exactly the
same four fields, so the same structure serves both roles. -/

structure Chunk where
  chunk_id : String
  filename : String
  page : Option Nat
  text : String
  deriving DecidableEq, Inhabited

/-! ## Chunker (src/ingest.py)

Constants CHUNK_TOKENS = 900 and OVERLAP_TOKENS = 150 from src/ingest.py. -/

def CHUNK_TOKENS : Nat := 900

def OVERLAP_TOKENS : Nat := 150

/-- Embedding of the while-loop of _chunk_text (src/ingest.py lines 30-45),
generalized over the two module constants.  One fuel unit is one loop
iteration; `none` means the fuel was exhausted with the loop still running,
i.e. the Python loop has performed at least `fuel` iterations without
terminating.  The slice tokens[start:end] with end = min(start+cs, len) is
exactly (tokens.drop start).take cs. -/
def chunkLoop (cs ov : Nat) (tokens : List Nat) : Nat → Nat → Option (List (List Nat))
  | 0, start => if start < tokens.length then none else some []
  | f + 1, start =>
    if start < tokens.length then
      let e := min (start + cs) tokens.length
      let c := (tokens.drop start).take cs
      if e = tokens.length then some [c]
      else Option.map (fun r => c :: r) (chunkLoop cs ov tokens f (start + (cs - ov)))
    else some []

/-- The token windows emitted by _chunk_text for a given token sequence.
A fuel of tokens.length is enough whenever the loop terminates at all,
because each iteration that does not finish advances start by at least one
when ov < cs. -/
def chunkWindows (cs ov : Nat) (tokens : List Nat) : Option (List (List Nat)) :=
  chunkLoop cs ov tokens tokens.length 0

/-- Chunk identifier from _chunk_text: filename::p<page>::c<k> when a page is
known, else filename::c<k>. -/
def chunkIdOf (filename : String) (page : Option Nat) (k : Nat) : String :=
  match page with
  | some p => filename ++ "::p" ++ toString p ++ "::c" ++ toString k
  | none => filename ++ "::c" ++ toString k

/-- Full _chunk_text: encode, window, decode, attach identifiers.  The
tokenizer pair (enc, dec) is the external tiktoken encoding. -/
def chunk_text (enc : String → List Nat) (dec : List Nat → String)
    (filename : String) (page : Option Nat) (text : String) : Option (List Chunk) :=
  match chunkWindows CHUNK_TOKENS OVERLAP_TOKENS (enc text) with
  | none => none
  | some ws => some ((ws.enum).map (fun p =>
      { chunk_id := chunkIdOf filename page p.1
        filename := filename
        page := page
        text := dec p.2 }))

/-- Removing the overlapping regions: the first window is kept whole and
every later window loses its first ov tokens (the region it shares with its
predecessor). -/
def reconstruct (ov : Nat) : List (List Nat) → List Nat
  | [] => []
  | c :: rest => c ++ (rest.map (List.drop ov)).flatten

/-! ### Chunker lemmas -/

/-- Shape of the chunking loop under the precondition ov < cs: it terminates
within tokens.length - start iterations, window k (counting from the current
start) is the cs-token slice beginning at start + k*(cs-ov), every non-final
window ends strictly before the end of the token sequence, the final window
reaches the end, and the output is empty exactly when the loop is never
entered. -/
theorem chunkLoop_spec (cs ov : Nat) (hov : ov < cs) (tokens : List Nat) :
    ∀ fuel start, tokens.length - start ≤ fuel →
      ∃ ws, chunkLoop cs ov tokens fuel start = some ws ∧
        (∀ k, k < ws.length → ws.getD k [] = (tokens.drop (start + k * (cs - ov))).take cs) ∧
        (∀ k, k + 1 < ws.length → start + k * (cs - ov) + cs < tokens.length) ∧
        (ws ≠ [] → tokens.length ≤ start + (ws.length - 1) * (cs - ov) + cs) ∧
        (ws = [] ↔ tokens.length ≤ start) := by
  intro fuel
  induction fuel with
  | zero =>
    intro start hle
    refine ⟨[], ?_, ?_, ?_, ?_, ?_⟩
    · simp only [chunkLoop]
      have : ¬ start < tokens.length := by omega
      simp [this]
    · intro k hk; simp at hk
    · intro k hk; simp at hk
    · intro h; exact absurd rfl h
    · constructor
      · intro _; omega
      · intro _; rfl
  | succ f ih =>
    intro start hle
    by_cases hs : start < tokens.length
    · by_cases hend : min (start + cs) tokens.length = tokens.length
      · refine ⟨[(tokens.drop start).take cs], ?_, ?_, ?_, ?_, ?_⟩
        · simp [chunkLoop, hs, hend]
        · intro k hk
          simp only [List.length_singleton] at hk
          have hk0 : k = 0 := by omega
          subst hk0
          simp
        · intro k hk
          simp only [List.length_singleton] at hk
          omega
        · intro _
          simp only [List.length_singleton]
          omega
        · constructor
          · intro h; simp at h
          · intro h; omega
      · have hcs : start + cs < tokens.length := by
          rcases Nat.le_total (start + cs) tokens.length with h | h
          · rcases Nat.lt_or_ge (start + cs) tokens.length with h2 | h2
            · exact h2
            · exact absurd (by omega : min (start + cs) tokens.length = tokens.length) hend
          · exact absurd (by omega : min (start + cs) tokens.length = tokens.length) hend
        have hstep : 1 ≤ cs - ov := by omega
        have hrec : tokens.length - (start + (cs - ov)) ≤ f := by omega
        obtain ⟨ws, hws, hwin, hfull, hfin, hemp⟩ := ih (start + (cs - ov)) hrec
        have hwsne : ws ≠ [] := by
          intro h
          have := hemp.mp h
          omega
        refine ⟨(tokens.drop start).take cs :: ws, ?_, ?_, ?_, ?_, ?_⟩
        · simp [chunkLoop, hs, hend, hws]
        · intro k hk
          cases k with
          | zero => simp
          | succ j =>
            have hj : j < ws.length := by simpa using hk
            have := hwin j hj
            simp only [List.getD_cons_succ]
            rw [this]
            ring_nf
        · intro k hk
          cases k with
          | zero => simpa using hcs
          | succ j =>
            have hj : j + 1 < ws.length := by simpa using hk
            have := hfull j hj
            calc start + (j + 1) * (cs - ov) + cs
                = start + (cs - ov) + j * (cs - ov) + cs := by ring_nf
              _ < tokens.length := this
        · intro _
          have := hfin hwsne
          have hlen : (((tokens.drop start).take cs :: ws).length - 1) = ws.length := by
            simp
          rw [hlen]
          have hwl : 1 ≤ ws.length := List.length_pos.mpr hwsne
          calc tokens.length
              ≤ start + (cs - ov) + (ws.length - 1) * (cs - ov) + cs := this
            _ = start + ws.length * (cs - ov) + cs := by
                obtain ⟨w, hw⟩ : ∃ w, ws.length = w + 1 := ⟨ws.length - 1, by omega⟩
                rw [hw, Nat.add_sub_cancel]
                ring
        · constructor
          · intro h; simp at h
          · intro h; omega
    · refine ⟨[], ?_, ?_, ?_, ?_, ?_⟩
      · simp [chunkLoop, hs]
      · intro k hk; simp at hk
      · intro k hk; simp at hk
      · intro h; exact absurd rfl h
      · constructor
        · intro _; omega
        · intro _; rfl

/-- Flattening the ov-dropped windows of a loop run started inside the token
sequence yields the suffix of the tokens from start + ov on. -/
theorem chunkLoop_flatten_drop (cs ov : Nat) (hov : ov < cs) (tokens : List Nat) :
    ∀ fuel start ws, chunkLoop cs ov tokens fuel start = some ws →
      start < tokens.length →
      (ws.map (List.drop ov)).flatten = tokens.drop (start + ov) := by
  intro fuel
  induction fuel with
  | zero =>
    intro start ws h hs
    simp [chunkLoop, hs] at h
  | succ f ih =>
    intro start ws h hs
    simp only [chunkLoop, if_pos hs] at h
    by_cases hend : min (start + cs) tokens.length = tokens.length
    · rw [if_pos hend] at h
      obtain rfl : [(tokens.drop start).take cs] = ws := by
        injection h
      have hn : tokens.length ≤ start + cs := by omega
      simp only [List.map_cons, List.map_nil, List.flatten_cons, List.flatten_nil,
        List.append_nil]
      rw [List.drop_take, List.drop_drop]
      apply List.take_of_length_le
      simp only [List.length_drop]
      omega
    · rw [if_neg hend] at h
      have hcs : start + cs < tokens.length := by omega
      cases hrec : chunkLoop cs ov tokens f (start + (cs - ov)) with
      | none =>
        rw [hrec] at h
        simp at h
      | some ws2 =>
        rw [hrec, Option.map_some'] at h
        obtain rfl : (tokens.drop start).take cs :: ws2 = ws := by
          injection h
        have hs2 : start + (cs - ov) < tokens.length := by omega
        have htail := ih (start + (cs - ov)) ws2 hrec hs2
        simp only [List.map_cons, List.flatten_cons]
        rw [htail]
        have harg : start + (cs - ov) + ov = start + cs := by omega
        rw [harg]
        rw [List.drop_take, List.drop_drop]
        have hsplit : tokens.drop (start + cs) =
            (tokens.drop (start + ov)).drop (cs - ov) := by
          rw [List.drop_drop]
          have : start + ov + (cs - ov) = start + cs := by omega
          rw [this]
        rw [hsplit]
        exact List.take_append_drop (cs - ov) (tokens.drop (start + ov))

/-- Reconstructing from a loop run (first window kept whole, later windows
stripped of their first ov tokens) yields exactly the tokens from start on. -/
theorem chunkLoop_reconstruct (cs ov : Nat) (hov : ov < cs) (tokens : List Nat)
    (fuel start : Nat) (ws : List (List Nat))
    (h : chunkLoop cs ov tokens fuel start = some ws) :
    reconstruct ov ws = tokens.drop start := by
  by_cases hs : start < tokens.length
  · cases fuel with
    | zero => simp [chunkLoop, hs] at h
    | succ f =>
      simp only [chunkLoop, if_pos hs] at h
      by_cases hend : min (start + cs) tokens.length = tokens.length
      · rw [if_pos hend] at h
        obtain rfl : [(tokens.drop start).take cs] = ws := by
          injection h
        simp only [reconstruct, List.map_nil, List.flatten_nil, List.append_nil]
        apply List.take_of_length_le
        simp only [List.length_drop]
        omega
      · rw [if_neg hend] at h
        have hcs : start + cs < tokens.length := by omega
        cases hrec : chunkLoop cs ov tokens f (start + (cs - ov)) with
        | none =>
          rw [hrec] at h
          simp at h
        | some ws2 =>
          rw [hrec, Option.map_some'] at h
          obtain rfl : (tokens.drop start).take cs :: ws2 = ws := by
            injection h
          have hs2 : start + (cs - ov) < tokens.length := by omega
          have htail := chunkLoop_flatten_drop cs ov hov tokens f (start + (cs - ov)) ws2 hrec hs2
          simp only [reconstruct]
          rw [htail]
          have harg : start + (cs - ov) + ov = start + cs := by omega
          rw [harg]
          have hsplit : tokens.drop (start + cs) =
              ((tokens.drop start).drop cs) := by
            rw [List.drop_drop]
          rw [hsplit]
          exact List.take_append_drop cs (tokens.drop start)
  · cases fuel with
    | zero =>
      simp only [chunkLoop, if_neg hs] at h
      obtain rfl : ([] : List (List Nat)) = ws := by injection h
      simp only [reconstruct]
      rw [List.drop_eq_nil_of_le (by omega)]
    | succ f =>
      simp only [chunkLoop, if_neg hs] at h
      obtain rfl : ([] : List (List Nat)) = ws := by injection h
      simp only [reconstruct]
      rw [List.drop_eq_nil_of_le (by omega)]

/-! ### Claim theorems for the Chunker -/

/-- C7: for every input token sequence, with overlap strictly less than chunk
size, the chunker emits windows starting every (chunk_size - overlap) tokens,
each window of length chunk_size tokens except possibly the final shorter
one, stopping when a window reaches the end of the token sequence; empty
input yields zero windows and non-empty input of at most chunk_size tokens
yields exactly one window holding the whole sequence. -/
theorem C7_chunker_windows (cs ov : Nat) (tokens : List Nat) (hov : ov < cs) :
    ∃ ws, chunkWindows cs ov tokens = some ws ∧
      (∀ k, k < ws.length → ws.getD k [] = (tokens.drop (k * (cs - ov))).take cs) ∧
      (∀ k, k + 1 < ws.length → (ws.getD k []).length = cs) ∧
      (ws ≠ [] → tokens.length ≤ (ws.length - 1) * (cs - ov) + cs) ∧
      (tokens = [] → ws = []) ∧
      (tokens ≠ [] → tokens.length ≤ cs → ws = [tokens]) := by
  obtain ⟨ws, hws, hwin, hfull, hfin, hemp⟩ :=
    chunkLoop_spec cs ov hov tokens tokens.length 0 (by omega)
  refine ⟨ws, hws, ?_, ?_, ?_, ?_, ?_⟩
  · intro k hk
    have := hwin k hk
    simpa using this
  · intro k hk
    have hk1 : k < ws.length := by omega
    have hw := hwin k hk1
    have hlt := hfull k hk
    rw [hw]
    simp only [List.length_take, List.length_drop]
    omega
  · intro hne
    have := hfin hne
    simpa using this
  · intro ht
    subst ht
    exact hemp.mpr (by simp)
  · intro hne hlen
    have hn0 : 0 < tokens.length := List.length_pos.mpr hne
    have hwsne : ws ≠ [] := by
      intro h
      have := hemp.mp h
      omega
    have hws1 : ws.length = 1 := by
      by_contra hne1
      have h2 : 2 ≤ ws.length := by
        have := List.length_pos.mpr hwsne
        omega
      have := hfull 0 (by omega)
      simp only [Nat.zero_mul, Nat.zero_add] at this
      omega
    obtain ⟨a, rfl⟩ := List.length_eq_one.mp hws1
    have h0 := hwin 0 (by simp)
    simp only [List.getD_cons_zero] at h0
    subst h0
    simp [List.take_of_length_le hlen]

/-- C8: for every input token sequence chunked with overlap strictly less
than chunk size, keeping the first window whole and stripping the first
overlap tokens from every later window, the concatenation of the windows
reconstructs the original token sequence exactly. -/
theorem C8_chunker_coverage (cs ov : Nat) (tokens : List Nat) (hov : ov < cs) :
    ∃ ws, chunkWindows cs ov tokens = some ws ∧ reconstruct ov ws = tokens := by
  obtain ⟨ws, hws, -, -, -, -⟩ :=
    chunkLoop_spec cs ov hov tokens tokens.length 0 (by omega)
  refine ⟨ws, hws, ?_⟩
  have := chunkLoop_reconstruct cs ov hov tokens tokens.length 0 ws hws
  simpa using this

/-- Witness for C7 at a concrete input: chunk size 3, overlap 1, seven
tokens, giving windows of length 3, 3, 3 starting at 0, 2, 4. -/
theorem C7_chunker_windows_witness :
    (1 : Nat) < 3 ∧
      ∃ ws, chunkWindows 3 1 [10, 11, 12, 13, 14, 15, 16] = some ws ∧
        (∀ k, k < ws.length →
          ws.getD k [] = (([10, 11, 12, 13, 14, 15, 16] : List Nat).drop (k * (3 - 1))).take 3) ∧
        (∀ k, k + 1 < ws.length → (ws.getD k []).length = 3) ∧
        (ws ≠ [] → ([10, 11, 12, 13, 14, 15, 16] : List Nat).length ≤ (ws.length - 1) * (3 - 1) + 3) ∧
        (([10, 11, 12, 13, 14, 15, 16] : List Nat) = [] → ws = []) ∧
        (([10, 11, 12, 13, 14, 15, 16] : List Nat) ≠ [] →
          ([10, 11, 12, 13, 14, 15, 16] : List Nat).length ≤ 3 → ws = [[10, 11, 12, 13, 14, 15, 16]]) :=
  ⟨by decide, C7_chunker_windows 3 1 [10, 11, 12, 13, 14, 15, 16] (by decide)⟩

/-- Witness for C8 at a concrete input: chunk size 3, overlap 1, five
tokens. -/
theorem C8_chunker_coverage_witness :
    (1 : Nat) < 3 ∧
      ∃ ws, chunkWindows 3 1 [1, 2, 3, 4, 5] = some ws ∧ reconstruct 1 ws = [1, 2, 3, 4, 5] :=
  ⟨by decide, C8_chunker_coverage 3 1 [1, 2, 3, 4, 5] (by decide)⟩

/-- With overlap equal to chunk size the loop body leaves start unchanged, so
no amount of fuel lets it finish: the Python loop never terminates. -/
theorem chunkLoop_no_progress (fuel : Nat) :
    chunkLoop 2 2 [0, 0, 0] fuel 0 = none := by
  induction fuel with
  | zero => simp [chunkLoop]
  | succ f ih => simp [chunkLoop, ih]

/-- C9 counterexample: with overlap = chunk size = 2 on three tokens, the
chunking loop is entered and makes no forward progress — it reports no
configuration error and has not terminated after a million iterations, so
the code does not fail fast at configuration time. -/
theorem C9_counterexample :
    chunkWindows 2 2 [0, 0, 0] = none ∧ chunkLoop 2 2 [0, 0, 0] 1000000 0 = none :=
  ⟨chunkLoop_no_progress 3, chunkLoop_no_progress 1000000⟩

/-- C9 amended: the source performs no explicit configuration check; the
precondition holds because chunk size and overlap are the fixed constants
900 and 150 with 150 < 900, under which the chunking loop makes forward
progress and terminates on every input, while a violating configuration
(overlap = chunk size) is entered and never terminates rather than being
rejected with a configuration error. -/
theorem C9_amended :
    OVERLAP_TOKENS < CHUNK_TOKENS ∧
      (∀ tokens : List Nat,
        ∃ ws, chunkWindows CHUNK_TOKENS OVERLAP_TOKENS tokens = some ws) ∧
      (∀ fuel, chunkLoop 2 2 [0, 0, 0] fuel 0 = none) := by
  refine ⟨by decide, ?_, chunkLoop_no_progress⟩
  intro tokens
  obtain ⟨ws, hws, -, -, -, -⟩ :=
    chunkLoop_spec CHUNK_TOKENS OVERLAP_TOKENS (by decide) tokens tokens.length 0 (by omega)
  exact ⟨ws, hws⟩

/-! ## Embedding Index Builder (src/embeddings.py) -/

def BATCH_SIZE : Nat := 100

/-- On-disk index: the contents of embeddings.npz and meta.json, with none
standing for an absent file.  Embedding vectors are rows of rationals. -/
structure IndexState where
  emb : Option (List (List ℚ))
  meta : Option (List Chunk)
  deriving DecidableEq, Inhabited

/-- load_index (src/embeddings.py lines 65-72): (None, []) when either file
is missing, otherwise the stored matrix and metadata list. -/
def load_index (st : IndexState) : Option (List (List ℚ)) × List Chunk :=
  match st.emb, st.meta with
  | some arr, some meta => (some arr, meta)
  | _, _ => (none, [])

/-- Batch loop of build_index (src/embeddings.py lines 49-60): the chunk list
is processed in slices of BATCH_SIZE, one embedding-service call per slice;
svc may fail (network, quota, auth), and a failure propagates out of the
loop.  The metadata entry appended per chunk carries exactly the four fields
chunk_id, filename, page, text of that chunk, which is the whole Chunk
record. -/
def buildLoop (svc : List String → Except String (List (List ℚ))) :
    List Chunk → Except String (List (List ℚ) × List Chunk)
  | [] => .ok ([], [])
  | c :: rest =>
    let batch := (c :: rest).take BATCH_SIZE
    match svc (batch.map (fun ch => ch.text)) with
    | .error e => .error e
    | .ok vectors =>
      match buildLoop svc ((c :: rest).drop BATCH_SIZE) with
      | .error e => .error e
      | .ok (vs, ms) => .ok (vectors ++ vs, batch ++ ms)
  termination_by cs => cs.length
  decreasing_by simp [BATCH_SIZE]; omega

/-- build_index (src/embeddings.py lines 31-62) as a transformer of the
persisted index state: an empty chunk list returns 0 before anything is
written; a service failure propagates before either artifact is written, so
the state is unchanged; on success both artifacts are replaced together and
the number of metadata entries is returned. -/
def build_index (svc : List String → Except String (List (List ℚ)))
    (chunks : List Chunk) (st : IndexState) : Except String Nat × IndexState :=
  if chunks = [] then (.ok 0, st)
  else
    match buildLoop svc chunks with
    | .error e => (.error e, st)
    | .ok (vectors, meta) =>
      (.ok meta.length, { emb := some vectors, meta := some meta })

/-- When every service call succeeds and returns one embedding per input
text, the batch loop embeds every chunk text in order and copies every chunk
record in order. -/
theorem buildLoop_map (embedOne : String → List ℚ) :
    ∀ n (cs : List Chunk), cs.length ≤ n →
      buildLoop (fun ts => .ok (ts.map embedOne)) cs =
        .ok (cs.map (fun c => embedOne c.text), cs) := by
  intro n
  induction n with
  | zero =>
    intro cs h
    have hnil : cs = [] := List.eq_nil_of_length_eq_zero (by omega)
    subst hnil
    simp [buildLoop]
  | succ n ih =>
    intro cs h
    match cs with
    | [] => simp [buildLoop]
    | c :: rest =>
      have hrec := ih ((c :: rest).drop BATCH_SIZE) (by
        simp only [List.length_drop, List.length_cons, BATCH_SIZE] at *
        omega)
      rw [buildLoop, hrec]
      simp only [List.map_map, Function.comp_def]
      rw [← List.map_append, List.take_append_drop]

/-- C6: if any embedding-service call fails during build_index, the build
aborts with that error and the previously persisted embedding matrix and
metadata files are left exactly as they were before the build started. -/
theorem C6_build_abort (svc : List String → Except String (List (List ℚ)))
    (chunks : List Chunk) (st : IndexState) (e : String)
    (h : buildLoop svc chunks = .error e) :
    build_index svc chunks st = (.error e, st) := by
  have hne : chunks ≠ [] := by
    intro hc
    subst hc
    simp [buildLoop] at h
  unfold build_index
  rw [if_neg hne, h]

/-- Witness for C6: a single-chunk build against a service that fails with a
network error leaves the pre-existing index state untouched. -/
theorem C6_build_abort_witness :
    build_index (fun _ => .error "APIConnectionError")
        [{ chunk_id := "f.txt::c0", filename := "f.txt", page := none, text := "t" }]
        { emb := some [[1]],
          meta := some [{ chunk_id := "old", filename := "old.txt", page := none, text := "o" }] } =
      (.error "APIConnectionError",
        { emb := some [[1]],
          meta := some [{ chunk_id := "old", filename := "old.txt", page := none, text := "o" }] }) :=
  C6_build_abort (fun _ => .error "APIConnectionError")
    [{ chunk_id := "f.txt::c0", filename := "f.txt", page := none, text := "t" }]
    { emb := some [[1]],
      meta := some [{ chunk_id := "old", filename := "old.txt", page := none, text := "o" }] }
    "APIConnectionError" (by simp [buildLoop])

/-- C5: after every successful build_index run against a service that
returns one embedding per text, the committed metadata list and embedding
matrix are parallel arrays: equal lengths, entry i is exactly chunk i and
row i is exactly the embedding of the text of chunk i, and the parallelism
survives the save/load round trip; an empty chunk list commits nothing and
returns 0. -/
theorem C5_build_alignment (embedOne : String → List ℚ)
    (chunks : List Chunk) (st : IndexState) :
    (chunks = [] →
      build_index (fun ts => .ok (ts.map embedOne)) chunks st = (.ok 0, st)) ∧
    (chunks ≠ [] →
      build_index (fun ts => .ok (ts.map embedOne)) chunks st =
          (.ok chunks.length,
            { emb := some (chunks.map (fun c => embedOne c.text)), meta := some chunks }) ∧
        (chunks.map (fun c => embedOne c.text)).length = chunks.length ∧
        (∀ i, i < chunks.length →
          (chunks.map (fun c => embedOne c.text)).getD i [] =
            embedOne ((chunks.getD i default).text)) ∧
        load_index { emb := some (chunks.map (fun c => embedOne c.text)), meta := some chunks } =
          (some (chunks.map (fun c => embedOne c.text)), chunks)) := by
  constructor
  · intro hnil
    subst hnil
    simp [build_index]
  · intro hne
    have hloop := buildLoop_map embedOne chunks.length chunks (by omega)
    refine ⟨?_, by simp, ?_, rfl⟩
    · unfold build_index
      rw [if_neg hne, hloop]
    · intro i hi
      rw [List.getD_eq_getElem?_getD, List.getElem?_map,
        List.getD_eq_getElem?_getD]
      cases hx : chunks[i]? with
      | none =>
        have := List.getElem?_eq_none_iff.mp hx
        omega
      | some c =>
        simp [List.getD_eq_getElem?_getD, hx]

/-- Witness for C5 at a concrete two-chunk build with a concrete embedding
function. -/
theorem C5_build_alignment_witness :
    (([{ chunk_id := "a", filename := "f", page := none, text := "x" },
       { chunk_id := "b", filename := "f", page := some 2, text := "yz" }] : List Chunk) = [] →
      build_index (fun ts => .ok (ts.map (fun s => [(s.length : ℚ)])))
          [{ chunk_id := "a", filename := "f", page := none, text := "x" },
           { chunk_id := "b", filename := "f", page := some 2, text := "yz" }]
          { emb := none, meta := none } = (.ok 0, { emb := none, meta := none })) ∧
    (([{ chunk_id := "a", filename := "f", page := none, text := "x" },
       { chunk_id := "b", filename := "f", page := some 2, text := "yz" }] : List Chunk) ≠ [] →
      build_index (fun ts => .ok (ts.map (fun s => [(s.length : ℚ)])))
          [{ chunk_id := "a", filename := "f", page := none, text := "x" },
           { chunk_id := "b", filename := "f", page := some 2, text := "yz" }]
          { emb := none, meta := none } =
        (.ok ([{ chunk_id := "a", filename := "f", page := none, text := "x" },
               { chunk_id := "b", filename := "f", page := some 2, text := "yz" }] : List Chunk).length,
          { emb := some (([{ chunk_id := "a", filename := "f", page := none, text := "x" },
                           { chunk_id := "b", filename := "f", page := some 2, text := "yz" }] : List Chunk).map
                            (fun c => [(c.text.length : ℚ)])),
            meta := some [{ chunk_id := "a", filename := "f", page := none, text := "x" },
                          { chunk_id := "b", filename := "f", page := some 2, text := "yz" }] }) ∧
      (([{ chunk_id := "a", filename := "f", page := none, text := "x" },
         { chunk_id := "b", filename := "f", page := some 2, text := "yz" }] : List Chunk).map
          (fun c => [(c.text.length : ℚ)])).length =
        ([{ chunk_id := "a", filename := "f", page := none, text := "x" },
          { chunk_id := "b", filename := "f", page := some 2, text := "yz" }] : List Chunk).length ∧
      (∀ i, i < ([{ chunk_id := "a", filename := "f", page := none, text := "x" },
                  { chunk_id := "b", filename := "f", page := some 2, text := "yz" }] : List Chunk).length →
        (([{ chunk_id := "a", filename := "f", page := none, text := "x" },
           { chunk_id := "b", filename := "f", page := some 2, text := "yz" }] : List Chunk).map
            (fun c => [(c.text.length : ℚ)])).getD i [] =
          [((([{ chunk_id := "a", filename := "f", page := none, text := "x" },
               { chunk_id := "b", filename := "f", page := some 2, text := "yz" }] : List Chunk).getD i default).text.length : ℚ)]) ∧
      load_index { emb := some (([{ chunk_id := "a", filename := "f", page := none, text := "x" },
                                  { chunk_id := "b", filename := "f", page := some 2, text := "yz" }] : List Chunk).map
                                   (fun c => [(c.text.length : ℚ)])),
                   meta := some [{ chunk_id := "a", filename := "f", page := none, text := "x" },
                                 { chunk_id := "b", filename := "f", page := some 2, text := "yz" }] } =
        (some (([{ chunk_id := "a", filename := "f", page := none, text := "x" },
                 { chunk_id := "b", filename := "f", page := some 2, text := "yz" }] : List Chunk).map
                  (fun c => [(c.text.length : ℚ)])),
          [{ chunk_id := "a", filename := "f", page := none, text := "x" },
           { chunk_id := "b", filename := "f", page := some 2, text := "yz" }])) :=
  C5_build_alignment (fun s => [(s.length : ℚ)])
    [{ chunk_id := "a", filename := "f", page := none, text := "x" },
     { chunk_id := "b", filename := "f", page := some 2, text := "yz" }]
    { emb := none, meta := none }

/-! ## Retriever (src/retrieval.py) -/

def DEFAULT_TOP_K : Nat := 5

/-- SOURCE_META table from src/retrieval.py lines 18-37: committed raw-doc
filename mapped to display title and url. -/
def SOURCE_META : List (String × String × String) :=
  [("01_mastercard_agent_suite.txt",
    "Mastercard Agent Suite Launch (Jan 2026)",
    "https://newsroom.mastercard.com/press-releases/mastercard-launches-agent-suite-to-power-commerce-in-the-age-of-ai/"),
   ("02_cloudflare_mastercard_cyber.txt",
    "Cloudflare × Mastercard Cyber Defense (Feb 2026)",
    "https://www.cloudflare.com/press-releases/2026/cloudflare-and-mastercard-partner-to-extend-comprehensive-cyber-defense-to-businesses-worldwide/"),
   ("03_cloudflare_mastercard_agentic.txt",
    "Cloudflare × Mastercard Agentic Commerce (2025)",
    "https://www.cloudflare.com/press-releases/2025/cloudflare-collaborates-with-leading-payments-companies-to-secure-and-enable-agentic-commerce/"),
   ("04_mastercard_10k_2024.txt",
    "Mastercard 10-K Annual Report FY2024",
    "https://www.sec.gov/Archives/edgar/data/1141391/000114139125000007/ma-20241231.htm")]

/-- One retrieval result as assembled by retrieve (src/retrieval.py lines
60-77). -/
structure RetrievalResult where
  chunk_id : String
  filename : String
  page : Option Nat
  text : String
  score : ℚ
  citation : String
  source_title : String
  source_url : String
  deriving DecidableEq, Inhabited

/-- Contract of np.argsort(scores) as numpy documents it: some permutation
of the indices 0..n-1 along which the scores are ascending.  The default
kind=quicksort is NOT stable, so the relative order of indices whose scores
are equal is unspecified; the sorting routine is therefore passed into
retrieve as an external parameter constrained only by this predicate, and
no property below asserts any particular tie order. -/
def IsArgsortAsc (scores : List ℚ) (idxs : List Nat) : Prop :=
  idxs.Perm (List.range scores.length) ∧
    List.Pairwise (fun i j => scores.getD i 0 ≤ scores.getD j 0) idxs

/-- np.argsort(scores)[::-1][:top_k] from retrieve (src/retrieval.py line
58), for a given argsort routine. -/
def topIndices (argsort : List ℚ → List Nat) (scores : List ℚ) (top_k : Nat) : List Nat :=
  (argsort scores).reverse.take top_k

/-- Query embedding, _embed_query (src/retrieval.py lines 39-42): the OpenAI
client constructor raises when no API key is configured; with a key the
external service produces the vector or a service failure. -/
def embed_query (svc : String → Except String (List ℚ)) (apiKey : Option String)
    (query : String) : Except String (List ℚ) :=
  match apiKey with
  | none => .error "OpenAIError: The api_key client option must be set"
  | some _ => svc query

/-- Result-record construction, the loop body of retrieve (src/retrieval.py
lines 61-77): metadata fields plus score, citation synthesized from the
SOURCE_META lookup with the raw filename as fallback title and an empty
fallback url. -/
def mkResult (meta : List Chunk) (scores : List ℚ) (idx : Nat) : RetrievalResult :=
  let m := meta.getD idx default
  let page_str := match m.page with
    | some p => " p." ++ toString p
    | none => ""
  let entry := SOURCE_META.find? (fun s => s.1 == m.filename)
  let source_title := match entry with
    | some s => s.2.1
    | none => m.filename
  let source_url := match entry with
    | some s => s.2.2
    | none => ""
  { chunk_id := m.chunk_id
    filename := m.filename
    page := m.page
    text := m.text
    score := scores.getD idx 0
    citation := "[" ++ source_title ++ page_str ++ "]"
    source_title := source_title
    source_url := source_url }

/-- retrieve (src/retrieval.py lines 45-78).  cosSim is the external
cosine-similarity kernel applied to the query vector and one stored row,
and argsort is the external np.argsort routine, about which only the
IsArgsortAsc contract may be assumed. -/
def retrieve (cosSim : List ℚ → List ℚ → ℚ) (argsort : List ℚ → List Nat)
    (svc : String → Except String (List ℚ))
    (apiKey : Option String) (st : IndexState) (query : String) (top_k : Nat) :
    Except String (List RetrievalResult) :=
  match load_index st with
  | (none, _) => .ok []
  | (some arr, meta) =>
    if meta.length = 0 then .ok []
    else
      match embed_query svc apiKey query with
      | .error e => .error e
      | .ok q =>
        let scores := arr.map (cosSim q)
        .ok ((topIndices argsort scores top_k).map (mkResult meta scores))

/-! ### Retriever lemmas -/

/-- topIndices returns min(top_k, n) indices whenever the sorting routine
honours the argsort contract. -/
theorem topIndices_length (argsort : List ℚ → List Nat) (s : List ℚ) (k : Nat)
    (h : IsArgsortAsc s (argsort s)) :
    (topIndices argsort s k).length = min k s.length := by
  unfold topIndices
  rw [List.length_take, List.length_reverse, h.1.length_eq, List.length_range]

/-- Every selected index is in range. -/
theorem topIndices_mem (argsort : List ℚ → List Nat) (s : List ℚ) (k : Nat)
    (h : IsArgsortAsc s (argsort s)) :
    ∀ i ∈ topIndices argsort s k, i < s.length := by
  intro i hi
  unfold topIndices at hi
  have h1 : i ∈ (argsort s).reverse := List.mem_of_mem_take hi
  have h2 : i ∈ argsort s := List.mem_reverse.mp h1
  have h3 : i ∈ List.range s.length := h.1.mem_iff.mp h2
  exact List.mem_range.mp h3

/-- No index is selected twice. -/
theorem topIndices_nodup (argsort : List ℚ → List Nat) (s : List ℚ) (k : Nat)
    (h : IsArgsortAsc s (argsort s)) : (topIndices argsort s k).Nodup := by
  unfold topIndices
  apply List.Nodup.sublist (List.take_sublist _ _)
  rw [List.nodup_reverse]
  exact (h.1.symm).nodup (List.nodup_range s.length)

/-- The selected indices carry weakly descending scores; the order among
equal scores is whatever the sorting routine produced. -/
theorem topIndices_sorted (argsort : List ℚ → List Nat) (s : List ℚ) (k : Nat)
    (h : IsArgsortAsc s (argsort s)) :
    List.Pairwise (fun i j => s.getD j 0 ≤ s.getD i 0) (topIndices argsort s k) := by
  have hr : List.Pairwise (fun i j => s.getD j 0 ≤ s.getD i 0) (argsort s).reverse :=
    List.pairwise_reverse.mpr h.2
  exact List.Pairwise.sublist (List.take_sublist _ _) hr

/-! ### Claim theorems for the Retriever -/

/-- C4: for every query string and every top_k, if no index has been built
(the embedding-matrix file or the metadata file is absent, or the metadata
list is empty), retrieve returns the empty list and never raises. -/
theorem C4_retrieve_no_index (cosSim : List ℚ → List ℚ → ℚ)
    (argsort : List ℚ → List Nat)
    (svc : String → Except String (List ℚ)) (apiKey : Option String)
    (st : IndexState) (query : String) (top_k : Nat)
    (h : st.emb = none ∨ st.meta = none ∨ st.meta = some []) :
    retrieve cosSim argsort svc apiKey st query top_k = .ok [] := by
  obtain ⟨e, m⟩ := st
  simp only at h
  rcases h with h | h | h
  · subst h
    cases m <;> rfl
  · subst h
    cases e <;> rfl
  · subst h
    cases e <;> rfl

/-- Witness for C4 on the empty state. -/
theorem C4_retrieve_no_index_witness :
    retrieve (fun _ _ => 0) (fun s => List.range s.length) (fun _ => .ok [1]) (some "key")
      { emb := none, meta := none } "any query" 1000 = .ok [] :=
  C4_retrieve_no_index (fun _ _ => 0) (fun s => List.range s.length) (fun _ => .ok [1])
    (some "key") { emb := none, meta := none } "any query" 1000 (Or.inl rfl)

/-- C2 counterexample: two entries with equal scores; under the argsort
output numpy actually produces on this two-element input (the ascending
permutation [0, 1]), the [::-1] reversal makes the entry with the LARGER
original index come first, so the claimed smaller-index-first tie order
fails; the exhibited argsort output satisfies the documented contract. -/
theorem C2_counterexample :
    IsArgsortAsc [(1 : ℚ), 1] [0, 1] ∧
    (retrieve (fun _ row => row.getD 0 0) (fun _ => [0, 1]) (fun _ => .ok [1]) (some "key")
        { emb := some [[1], [1]],
          meta := some [{ chunk_id := "a", filename := "f", page := none, text := "ta" },
                        { chunk_id := "b", filename := "f", page := none, text := "tb" }] }
        "q" 2).map (fun l => (l.map (fun r => r.chunk_id), l.map (fun r => r.score))) =
      .ok (["b", "a"], ([1, 1] : List ℚ)) := by
  exact ⟨⟨by decide, by decide⟩, rfl⟩

/-- C2 amended: for every query and positive top_k against an index holding
N aligned entries, when the query embedding succeeds and the sorting routine
satisfies the documented np.argsort contract, retrieve returns exactly
min(top_k, N) results ordered weakly descending by cosine-similarity score;
the relative order of entries with equal scores is unspecified (numpy
default sort is not stable), so no tie rule is asserted. -/
theorem C2_retrieve_ranking (cosSim : List ℚ → List ℚ → ℚ)
    (argsort : List ℚ → List Nat)
    (svc : String → Except String (List ℚ)) (apiKey : Option String)
    (st : IndexState) (query : String) (top_k : Nat)
    (arr : List (List ℚ)) (meta : List Chunk) (q : List ℚ)
    (hk : 0 < top_k)
    (harr : st.emb = some arr) (hmeta : st.meta = some meta)
    (hlen : arr.length = meta.length) (hne : meta ≠ [])
    (hq : embed_query svc apiKey query = .ok q)
    (hsort : IsArgsortAsc (arr.map (cosSim q)) (argsort (arr.map (cosSim q)))) :
    retrieve cosSim argsort svc apiKey st query top_k =
      .ok ((topIndices argsort (arr.map (cosSim q)) top_k).map
        (mkResult meta (arr.map (cosSim q)))) ∧
    ((topIndices argsort (arr.map (cosSim q)) top_k).map
        (mkResult meta (arr.map (cosSim q)))).length = min top_k meta.length ∧
    (∀ i ∈ topIndices argsort (arr.map (cosSim q)) top_k, i < meta.length) ∧
    (topIndices argsort (arr.map (cosSim q)) top_k).Nodup ∧
    List.Pairwise (fun i j =>
      (arr.map (cosSim q)).getD j 0 ≤ (arr.map (cosSim q)).getD i 0)
      (topIndices argsort (arr.map (cosSim q)) top_k) ∧
    List.Pairwise (fun a b => b.score ≤ a.score)
      ((topIndices argsort (arr.map (cosSim q)) top_k).map
        (mkResult meta (arr.map (cosSim q)))) := by
  obtain ⟨e, m⟩ := st
  simp only at harr hmeta
  subst harr
  subst hmeta
  have hml : meta.length ≠ 0 := by
    intro h
    exact hne (List.eq_nil_of_length_eq_zero h)
  have hslen : (arr.map (cosSim q)).length = meta.length := by
    rw [List.length_map, hlen]
  refine ⟨?_, ?_, ?_, topIndices_nodup _ _ _ hsort, topIndices_sorted _ _ _ hsort, ?_⟩
  · unfold retrieve load_index
    simp only
    rw [if_neg hml, hq]
  · rw [List.length_map, topIndices_length _ _ _ hsort, hslen]
  · intro i hi
    have := topIndices_mem _ _ _ hsort i hi
    omega
  · rw [List.pairwise_map]
    refine (topIndices_sorted _ _ _ hsort).imp ?_
    intro i j hle
    exact hle

/-- Witness for the amended C2 on a concrete three-entry index with scores
1, 3, 2, top_k = 2, and a concrete contract-conforming argsort output. -/
theorem C2_retrieve_ranking_witness :
    retrieve (fun _ row => row.getD 0 0) (fun _ => [0, 2, 1]) (fun _ => .ok [(1 : ℚ)]) (some "key")
        { emb := some [[1], [3], [2]],
          meta := some [{ chunk_id := "a", filename := "f", page := none, text := "ta" },
                        { chunk_id := "b", filename := "f", page := none, text := "tb" },
                        { chunk_id := "c", filename := "f", page := none, text := "tc" }] }
        "q" 2 =
      .ok ((topIndices (fun _ => [0, 2, 1])
          (([[1], [3], [2]] : List (List ℚ)).map (fun row => row.getD 0 0)) 2).map
        (mkResult [{ chunk_id := "a", filename := "f", page := none, text := "ta" },
                   { chunk_id := "b", filename := "f", page := none, text := "tb" },
                   { chunk_id := "c", filename := "f", page := none, text := "tc" }]
          (([[1], [3], [2]] : List (List ℚ)).map (fun row => row.getD 0 0)))) ∧
    ((topIndices (fun _ => [0, 2, 1])
          (([[1], [3], [2]] : List (List ℚ)).map (fun row => row.getD 0 0)) 2).map
        (mkResult [{ chunk_id := "a", filename := "f", page := none, text := "ta" },
                   { chunk_id := "b", filename := "f", page := none, text := "tb" },
                   { chunk_id := "c", filename := "f", page := none, text := "tc" }]
          (([[1], [3], [2]] : List (List ℚ)).map (fun row => row.getD 0 0)))).length =
      min 2 ([{ chunk_id := "a", filename := "f", page := none, text := "ta" },
              { chunk_id := "b", filename := "f", page := none, text := "tb" },
              { chunk_id := "c", filename := "f", page := none, text := "tc" }] : List Chunk).length ∧
    (∀ i ∈ topIndices (fun _ => [0, 2, 1])
        (([[1], [3], [2]] : List (List ℚ)).map (fun row => row.getD 0 0)) 2,
      i < ([{ chunk_id := "a", filename := "f", page := none, text := "ta" },
            { chunk_id := "b", filename := "f", page := none, text := "tb" },
            { chunk_id := "c", filename := "f", page := none, text := "tc" }] : List Chunk).length) ∧
    (topIndices (fun _ => [0, 2, 1])
        (([[1], [3], [2]] : List (List ℚ)).map (fun row => row.getD 0 0)) 2).Nodup ∧
    List.Pairwise (fun i j =>
      (([[1], [3], [2]] : List (List ℚ)).map (fun row => row.getD 0 0)).getD j 0 ≤
        (([[1], [3], [2]] : List (List ℚ)).map (fun row => row.getD 0 0)).getD i 0)
      (topIndices (fun _ => [0, 2, 1])
        (([[1], [3], [2]] : List (List ℚ)).map (fun row => row.getD 0 0)) 2) ∧
    List.Pairwise (fun a b => b.score ≤ a.score)
      ((topIndices (fun _ => [0, 2, 1])
          (([[1], [3], [2]] : List (List ℚ)).map (fun row => row.getD 0 0)) 2).map
        (mkResult [{ chunk_id := "a", filename := "f", page := none, text := "ta" },
                   { chunk_id := "b", filename := "f", page := none, text := "tb" },
                   { chunk_id := "c", filename := "f", page := none, text := "tc" }]
          (([[1], [3], [2]] : List (List ℚ)).map (fun row => row.getD 0 0)))) :=
  C2_retrieve_ranking (fun _ row => row.getD 0 0) (fun _ => [0, 2, 1])
    (fun _ => .ok [(1 : ℚ)]) (some "key")
    { emb := some [[1], [3], [2]],
      meta := some [{ chunk_id := "a", filename := "f", page := none, text := "ta" },
                    { chunk_id := "b", filename := "f", page := none, text := "tb" },
                    { chunk_id := "c", filename := "f", page := none, text := "tc" }] }
    "q" 2 [[1], [3], [2]]
    [{ chunk_id := "a", filename := "f", page := none, text := "ta" },
     { chunk_id := "b", filename := "f", page := none, text := "tb" },
     { chunk_id := "c", filename := "f", page := none, text := "tc" }]
    [1] (by decide) rfl rfl rfl (by decide) rfl ⟨by decide, by decide⟩

/-! ## Grounded Answer Generator (src/qa.py) -/

structure Msg where
  role : String
  content : String
  deriving DecidableEq, Inhabited

/-- Excerpt record shipped in the answer (src/qa.py lines 70-78 and
100-108). -/
structure Excerpt where
  citation : String
  source_title : String
  source_url : String
  text : String
  score : ℚ
  deriving DecidableEq, Inhabited

/-- Result shape of answer_question, plus an instrumentation counter for the
number of chat-completion calls performed while producing it. -/
structure AnswerResult where
  answer : String
  citations : List String
  excerpts : List Excerpt
  noIndex : Bool
  deriving DecidableEq, Inhabited

/-- SYSTEM_PROMPT constant from src/qa.py lines 13-22. -/
def SYSTEM_PROMPT : String :=
  "You are a financial analyst assistant for Mastercard (NYSE: MA) — MGMT690 MBA case study.\n\nCRITICAL RULE: Answer ONLY using the case document excerpts provided in this message.\nIf the answer is not found in the excerpts, say exactly: \"This information is not in the case documents I have access to.\"\nDo not fabricate data, invent numbers, or draw on knowledge beyond the provided excerpts.\n\nWhen you use information from an excerpt, cite it explicitly (e.g., \"Per the Agent Suite PR, ...\").\nBe direct and concise — bullet points preferred. Maximum 150 words unless the question requires more detail.\n"

/-- Message sent when no API key is configured (src/qa.py line 68). -/
def API_KEY_WARNING : String :=
  "⚠️ OpenAI API key not configured. Add OPENAI_API_KEY to Streamlit secrets or .env."

/-- Excerpts block assembled by answer_question (src/qa.py lines 49-53): one
tagged block per retrieved chunk, numbered from 1. -/
def excerptsText (chunks : List RetrievalResult) : String :=
  (chunks.enum.map (fun p =>
    "\n--- Excerpt " ++ toString (p.1 + 1) ++ " " ++ p.2.citation ++ " ---\n" ++
      p.2.text ++ "\n")).foldl (fun a b => a ++ b) ""

/-- Citation list from answer_question (src/qa.py line 54): the source
materializes the set of the citation labels of the retrieved chunks; the
iteration order of a Python set is an implementation detail, so the set is
modelled as the deduplicated label list — faithful up to ordering, on which
no claim depends. -/
def citationsOf (chunks : List RetrievalResult) : List String :=
  (chunks.map (fun c => c.citation)).dedup

/-- Excerpt projection used for the result (src/qa.py lines 70-78). -/
def toExcerpt (c : RetrievalResult) : Excerpt :=
  { citation := c.citation, source_title := c.source_title,
    source_url := c.source_url, text := c.text, score := c.score }

/-- answer_question (src/qa.py lines 26-115).  chat is the external
chat-completion client (the OpenAI chat.completions.create call, whose
returned text the source strips); the second component of a successful
result counts how many times chat was invoked.  The retrieval step may
raise (query embedding without credentials), and that exception
propagates. -/
def answer_question (cosSim : List ℚ → List ℚ → ℚ)
    (argsort : List ℚ → List Nat)
    (svc : String → Except String (List ℚ)) (chat : List Msg → String)
    (apiKey : Option String) (st : IndexState) (question : String)
    (top_k : Nat) (history : List Msg) :
    Except String (AnswerResult × Nat) :=
  match retrieve cosSim argsort svc apiKey st question top_k with
  | .error e => .error e
  | .ok chunks =>
    let excerpts_text :=
      if chunks ≠ [] then excerptsText chunks
      else "No case document excerpts are available."
    let citations := if chunks ≠ [] then citationsOf chunks else []
    let noIndex := if chunks ≠ [] then false else true
    let user_msg := "Case document excerpts for context:\n" ++ excerpts_text ++
      "\n\nQuestion: " ++ question ++
      "\n\nAnswer strictly from the excerpts above. Cite sources explicitly."
    match apiKey with
    | none =>
      .ok ({ answer := API_KEY_WARNING, citations := citations,
             excerpts := chunks.map toExcerpt, noIndex := noIndex }, 0)
    | some _ =>
      let messages := { role := "system", content := SYSTEM_PROMPT } ::
        (history ++ [{ role := "user", content := user_msg }])
      .ok ({ answer := (chat messages).trim, citations := citations,
             excerpts := chunks.map toExcerpt, noIndex := noIndex }, 1)

/-- User message assembled when retrieval produced no chunks: the context
block states that no excerpts are available. -/
def noEvidenceUserMsg (question : String) : String :=
  "Case document excerpts for context:\n" ++
    "No case document excerpts are available." ++
    "\n\nQuestion: " ++ question ++
    "\n\nAnswer strictly from the excerpts above. Cite sources explicitly."

/-- Message sequence sent to the chat client when retrieval produced no
chunks: the fixed system prompt, the prior history, and the user turn built
on the no-excerpts context block. -/
def noEvidenceMessages (question : String) (history : List Msg) : List Msg :=
  { role := "system", content := SYSTEM_PROMPT } ::
    (history ++ [{ role := "user", content := noEvidenceUserMsg question }])

/-! ### Claim theorems for the Answer Generator -/

/-- C1 counterexample: against an empty index with an API key configured,
answer_question invokes the chat-completion client once (call count 1, not
the zero calls the claim requires) and returns the model output rather than
a fixed no-index message. -/
theorem C1_counterexample :
    answer_question (fun _ _ => 0) (fun s => List.range s.length) (fun _ => .ok [1])
        (fun _ => "model output")
        (some "key") { emb := none, meta := none } "anything" 5 [] =
      .ok ({ answer := "model output".trim, citations := [], excerpts := [],
             noIndex := true }, 1) := by
  rfl

/-- C1 amended: whenever the Retriever returns zero chunks the result
carries noIndex = true with empty citations and excerpts; when the API key
is missing the answer is the key warning and the chat-completion client is
never called, but when a key is configured the source still invokes the
chat-completion client exactly once, on a prompt whose context block states
that no excerpts are available, and returns its stripped output as the
answer — it does not short-circuit past the external model. -/
theorem C1_no_evidence (cosSim : List ℚ → List ℚ → ℚ)
    (argsort : List ℚ → List Nat)
    (svc : String → Except String (List ℚ)) (chat : List Msg → String)
    (apiKey : Option String) (st : IndexState) (question : String)
    (top_k : Nat) (history : List Msg)
    (h : retrieve cosSim argsort svc apiKey st question top_k = .ok []) :
    (apiKey = none →
      answer_question cosSim argsort svc chat apiKey st question top_k history =
        .ok ({ answer := API_KEY_WARNING, citations := [], excerpts := [],
               noIndex := true }, 0)) ∧
    (apiKey ≠ none →
      answer_question cosSim argsort svc chat apiKey st question top_k history =
        .ok ({ answer := (chat (noEvidenceMessages question history)).trim,
               citations := [], excerpts := [], noIndex := true }, 1)) := by
  constructor
  · intro hnone
    subst hnone
    unfold answer_question
    rw [h]
    rfl
  · intro hsome
    match apiKey with
    | none => exact absurd rfl hsome
    | some key =>
      unfold answer_question
      rw [h]
      rfl

/-- Witness for the amended C1 on the empty index with a key configured. -/
theorem C1_no_evidence_witness :
    ((some "key" : Option String) = none →
      answer_question (fun _ _ => 0) (fun s => List.range s.length) (fun _ => .ok [1])
          (fun _ => " padded output ")
          (some "key") { emb := none, meta := none } "anything" 5 [] =
        .ok ({ answer := API_KEY_WARNING, citations := [], excerpts := [],
               noIndex := true }, 0)) ∧
    ((some "key" : Option String) ≠ none →
      answer_question (fun _ _ => 0) (fun s => List.range s.length) (fun _ => .ok [1])
          (fun _ => " padded output ")
          (some "key") { emb := none, meta := none } "anything" 5 [] =
        .ok ({ answer := ((fun (_ : List Msg) => " padded output ")
                 (noEvidenceMessages "anything" [])).trim,
               citations := [], excerpts := [], noIndex := true }, 1)) :=
  C1_no_evidence (fun _ _ => 0) (fun s => List.range s.length) (fun _ => .ok [1])
    (fun _ => " padded output ")
    (some "key") { emb := none, meta := none } "anything" 5 [] rfl

/-- C3 counterexample: with an index present and the API key missing, the
query-embedding client constructor raises inside retrieve, so
answer_question propagates an exception instead of returning a result with
citations. -/
theorem C3_counterexample :
    answer_question (fun _ _ => 0) (fun s => List.range s.length) (fun _ => .ok [1])
        (fun _ => "out") none
        { emb := some [[1]],
          meta := some [{ chunk_id := "a", filename := "f", page := none, text := "t" }] }
        "q" 5 [] =
      .error "OpenAIError: The api_key client option must be set" := by
  rfl

/-- C3 amended: when the API key is missing and the retrieval step itself
completes without consulting the embedding service (in the code this is
exactly the no-index case, where retrieve returns its result before
embedding the query), answer_question returns the user-facing key warning
inside the normal result shape, with the citations and excerpts computed
from whatever was retrieved and without calling the chat client; when an
index is present, the missing key instead makes the embedding client
constructor raise inside retrieve and the exception propagates. -/
theorem C3_missing_key (cosSim : List ℚ → List ℚ → ℚ)
    (argsort : List ℚ → List Nat)
    (svc : String → Except String (List ℚ)) (chat : List Msg → String)
    (st : IndexState) (question : String) (top_k : Nat) (history : List Msg)
    (chunks : List RetrievalResult)
    (h : retrieve cosSim argsort svc none st question top_k = .ok chunks) :
    answer_question cosSim argsort svc chat none st question top_k history =
      .ok ({ answer := API_KEY_WARNING,
             citations := if chunks ≠ [] then citationsOf chunks else [],
             excerpts := chunks.map toExcerpt,
             noIndex := if chunks ≠ [] then false else true }, 0) := by
  unfold answer_question
  rw [h]

/-- Witness for the amended C3 on the empty index. -/
theorem C3_missing_key_witness :
    answer_question (fun _ _ => 0) (fun s => List.range s.length) (fun _ => .ok [1])
        (fun _ => "out") none
        { emb := none, meta := none } "q" 5 [] =
      .ok ({ answer := API_KEY_WARNING,
             citations := if ([] : List RetrievalResult) ≠ [] then citationsOf [] else [],
             excerpts := ([] : List RetrievalResult).map toExcerpt,
             noIndex := if ([] : List RetrievalResult) ≠ [] then false else true }, 0) :=
  C3_missing_key (fun _ _ => 0) (fun s => List.range s.length) (fun _ => .ok [1])
    (fun _ => "out")
    { emb := none, meta := none } "q" 5 [] [] rfl

/-- C10: for every call to answer_question whose retrieval step returns a
chunk list, the citations list of the result is computed solely from the
retrieval results before the chat client is consulted: it holds each
distinct citation label appearing among the retrieved chunks exactly once,
and it is identical whatever the chat client later answers — any two chat
clients yield the same citations. -/
theorem C10_citations (cosSim : List ℚ → List ℚ → ℚ)
    (argsort : List ℚ → List Nat)
    (svc : String → Except String (List ℚ)) (chat chat2 : List Msg → String)
    (apiKey : Option String) (st : IndexState) (question : String)
    (top_k : Nat) (history : List Msg) (chunks : List RetrievalResult)
    (h : retrieve cosSim argsort svc apiKey st question top_k = .ok chunks) :
    (answer_question cosSim argsort svc chat apiKey st question top_k history).map
        (fun p => p.1.citations) = .ok (citationsOf chunks) ∧
    (citationsOf chunks).Nodup ∧
    (∀ s, s ∈ citationsOf chunks ↔ s ∈ chunks.map (fun c => c.citation)) ∧
    (answer_question cosSim argsort svc chat2 apiKey st question top_k history).map
        (fun p => p.1.citations) = .ok (citationsOf chunks) := by
  have hcit : (if chunks ≠ [] then citationsOf chunks else []) = citationsOf chunks := by
    by_cases hc : chunks = []
    · subst hc
      rfl
    · simp [hc]
  refine ⟨?_, List.nodup_dedup _, fun s => List.mem_dedup, ?_⟩
  · unfold answer_question
    rw [h]
    cases apiKey <;> simp [hcit] <;> rfl
  · unfold answer_question
    rw [h]
    cases apiKey <;> simp [hcit] <;> rfl

/-- Witness for C10: two retrieved chunks carrying the same citation label
produce a single-element citations list, identical across two different
chat clients. -/
theorem C10_citations_witness :
    (answer_question (fun _ row => row.getD 0 0) (fun s => List.range s.length)
        (fun _ => .ok [1]) (fun _ => "client one")
        (some "key")
        { emb := some [[1], [1]],
          meta := some [{ chunk_id := "a", filename := "f", page := none, text := "ta" },
                        { chunk_id := "b", filename := "f", page := none, text := "tb" }] }
        "q" 2 []).map (fun p => p.1.citations) =
      .ok (citationsOf
        [{ chunk_id := "b", filename := "f", page := none, text := "tb", score := 1,
           citation := "[f]", source_title := "f", source_url := "" },
         { chunk_id := "a", filename := "f", page := none, text := "ta", score := 1,
           citation := "[f]", source_title := "f", source_url := "" }]) ∧
    (citationsOf
        [{ chunk_id := "b", filename := "f", page := none, text := "tb", score := 1,
           citation := "[f]", source_title := "f", source_url := "" },
         { chunk_id := "a", filename := "f", page := none, text := "ta", score := 1,
           citation := "[f]", source_title := "f", source_url := "" }]).Nodup ∧
    (∀ s, s ∈ citationsOf
        [{ chunk_id := "b", filename := "f", page := none, text := "tb", score := 1,
           citation := "[f]", source_title := "f", source_url := "" },
         { chunk_id := "a", filename := "f", page := none, text := "ta", score := 1,
           citation := "[f]", source_title := "f", source_url := "" }] ↔
      s ∈ ([{ chunk_id := "b", filename := "f", page := none, text := "tb", score := 1,
              citation := "[f]", source_title := "f", source_url := "" },
            { chunk_id := "a", filename := "f", page := none, text := "ta", score := 1,
              citation := "[f]", source_title := "f", source_url := "" }] : List RetrievalResult).map
        (fun c => c.citation)) ∧
    (answer_question (fun _ row => row.getD 0 0) (fun s => List.range s.length)
        (fun _ => .ok [1]) (fun _ => "client two")
        (some "key")
        { emb := some [[1], [1]],
          meta := some [{ chunk_id := "a", filename := "f", page := none, text := "ta" },
                        { chunk_id := "b", filename := "f", page := none, text := "tb" }] }
        "q" 2 []).map (fun p => p.1.citations) =
      .ok (citationsOf
        [{ chunk_id := "b", filename := "f", page := none, text := "tb", score := 1,
           citation := "[f]", source_title := "f", source_url := "" },
         { chunk_id := "a", filename := "f", page := none, text := "ta", score := 1,
           citation := "[f]", source_title := "f", source_url := "" }]) :=
  C10_citations (fun _ row => row.getD 0 0) (fun s => List.range s.length)
    (fun _ => .ok [1])
    (fun _ => "client one") (fun _ => "client two") (some "key")
    { emb := some [[1], [1]],
      meta := some [{ chunk_id := "a", filename := "f", page := none, text := "ta" },
                    { chunk_id := "b", filename := "f", page := none, text := "tb" }] }
    "q" 2 []
    [{ chunk_id := "b", filename := "f", page := none, text := "tb", score := 1,
       citation := "[f]", source_title := "f", source_url := "" },
     { chunk_id := "a", filename := "f", page := none, text := "ta", score := 1,
       citation := "[f]", source_title := "f", source_url := "" }] rfl

end CardLens
